import Mathlib

/-!
Verification development for the `video-gen-bot` repository (a Telegram bot
that submits Sora video-generation jobs, reconciles webhook/poll completion
signals against a Baserow system of record, rehydrates state on restart, and
sweeps stale jobs).

The definitions below are a shallow embedding of the Python source:
  * `src/sora_bot/handlers.py`      — webhook/poll reconciliation, recovery, sweep
  * `src/sora_bot/baserow_client.py`— system-of-record client (incl. 401 retry)
  * `src/sora_bot/helpers.py`       — scheduling helper (and its missing import)
  * `src/sora_bot/sora_api.py`      — vendor client (and the missing
                                      `check_job_status` definition)

Machine state (the in-memory `pending_jobs` dict, the Baserow tables, the
notifications sent so far) is passed explicitly; Python exceptions are
`Except`; network effects are recorded as traces on the state.  Timestamps
are integer seconds since the epoch (UTC); the source stores them as ISO
strings produced by `datetime.now(timezone.utc).isoformat()` and compares
elapsed time in minutes, which over the reals is exactly the integer-second
comparison used here.
-/

/-- A Python exception relevant to this code base. -/
inductive PyError where
  | nameError (name : String)
  | importError (modName : String) (missing : String)
deriving Repr, DecidableEq

/-! ## Python name-resolution model (helpers.py and the sora_api import)

`helpers.py` line 8 is `from datetime import datetime, timedelta` — the name
`timezone` is NOT imported — yet `get_next_available_slot` (line 43) evaluates
`datetime.now(timezone.utc)`.  `handlers.py` line 15 is
`from .sora_api import generate_video, poll_for_completion, check_job_status`,
but `sora_api.py` defines no `check_job_status`.  We model the module scopes
as lists of bound names, taken from the import statements and top-level
definitions of each file. -/

/-- Top-level names bound in module `sora_bot.helpers` when its body has
executed: `import re` (line 7), `from datetime import datetime, timedelta`
(line 8), `from typing import List` (line 9), the three `config` imports
(line 11) and the three function definitions. -/
def helpersGlobalScope : List String :=
  ["re", "datetime", "timedelta", "List",
   "CAMBODIA_TZ", "POSTING_TIMES", "logger",
   "escape_markdown", "parse_video_length", "get_next_available_slot"]

/-- The Python builtins referenced anywhere in `helpers.py` (name lookup
falls back to builtins after module globals).  `timezone` is not a builtin. -/
def helpersBuiltinsUsed : List String :=
  ["len", "str", "isinstance", "range", "any", "filter", "bool"]

/-- Name lookup as performed inside a `helpers.py` function body for a
non-local name: module globals, then builtins. -/
def helpersResolves (n : String) : Bool :=
  helpersGlobalScope.contains n || helpersBuiltinsUsed.contains n

/-- The non-local names evaluated by the body of `get_next_available_slot`,
in source order of first evaluation.  Line 43 (`datetime.now(timezone.utc)`)
evaluates `datetime` and then `timezone` before anything else runs. -/
def getNextAvailableSlotFreeNames : List String :=
  ["datetime", "timezone", "CAMBODIA_TZ", "logger", "range", "timedelta",
   "POSTING_TIMES", "any"]

/-- First name of a body that fails to resolve (the one whose evaluation
raises `NameError`), if any. -/
def firstUnresolved (resolves : String → Bool) : List String → Option String
  | [] => none
  | n :: ns => if resolves n then firstUnresolved resolves ns else some n

/-- Top-level names bound in module `sora_bot.sora_api` when its body has
executed (lines 7, 9 and the two function definitions). -/
def soraApiModuleNames : List String :=
  ["aiohttp", "SORA_API_KEY", "logger", "generate_video", "poll_for_completion"]

/-- The names `handlers.py` line 15 asks `sora_api` for. -/
def handlersSoraApiImportNames : List String :=
  ["generate_video", "poll_for_completion", "check_job_status"]

/-- A `from M import a, b, c` statement fails with `ImportError` at the first
requested name the module does not bind. -/
def fromImportMissing (moduleNames importNames : List String) : Option String :=
  importNames.find? (fun n => !(moduleNames.contains n))

/-- Outcome of executing `handlers.py` line 15. -/
def importHandlersFromSoraApi : Except PyError Unit :=
  match fromImportMissing soraApiModuleNames handlersSoraApiImportNames with
  | some n => .error (.importError "sora_bot.sora_api" n)
  | none => .ok ()

/-- Every function or coroutine defined at top level anywhere in the
repository's Python files (`src/main.py`, `src/sora-telegram-bot.py`, and the
eight modules under `src/sora_bot/`).  Collected by reading every `def` /
`async def` in the source. -/
def repoDefinedFunctionNames : List String :=
  -- sora_bot/helpers.py
  ["escape_markdown", "parse_video_length", "get_next_available_slot",
  -- sora_bot/sora_api.py
   "generate_video", "poll_for_completion",
  -- sora_bot/baserow_client.py
   "get_baserow_token", "get_baserow_headers", "clear_token_cache",
   "get_record_by_uuid", "get_records_by_status", "save_generation_uuid",
   "get_page_name", "upload_video_to_baserow", "get_ready_records",
   "update_record_status", "create_post_queue_record",
  -- sora_bot/gemini_caption.py
   "generate_caption",
  -- sora_bot/telegram_client.py
   "send_telegram_message", "send_telegram_with_keyboard",
   "handle_status_command", "poll_telegram_updates",
  -- sora_bot/handlers.py
   "handle_generate_command", "poll_and_complete", "complete_video_generation",
   "handle_sora_webhook", "health_check", "recover_pending_jobs",
   "cleanup_stale_jobs",
  -- sora_bot/server.py
   "handle_telegram_message", "main",
  -- sora-telegram-bot.py repeats the same definitions (monolithic original);
  -- its def list is a subset of the names above and adds nothing new.
  -- main.py defines no functions.
   ]

/-! ## Data model

`Record` is a row of the Baserow Reels Generation table (table 748), with the
fields the embedded code reads: `id`, `Status`, `Generation UUID`, `Prompt`,
`Target Page` (a link-row list of `(id, value)` pairs), `Ready To Generate`,
`Video`.  Statuses are modelled by their display names; the source maps them
bijectively to single-select option ids via `REELS_STATUS_OPTIONS`
(`config.py` lines 44-49). -/

structure Record where
  id : Nat
  status : String
  genUuid : Option String
  prompt : String
  targetPage : List (Nat × String)
  readyToGenerate : Bool
  video : Option String
deriving Repr, DecidableEq

/-- An entry of the in-memory `pending_jobs` dict (`config.py` line 92;
populated at `handlers.py` lines 103-111, 179-185, 277-281, 360-368).
Fields that some constructions omit from the Python dict are `Option`s. -/
structure Job where
  record_id : Nat
  prompt : String
  page_id : Option Nat
  page_name : String
  status : Option String
  chat_id : Option String
  started_at : Option Int
  error : Option String
deriving Repr, DecidableEq

/-- A row of the Post Queue table created by `create_post_queue_record`
(`baserow_client.py` lines 385-392). -/
structure PostRecord where
  sourceReel : String
  pageIds : List Nat
  videoUrl : String
  scheduleFor : Int
  status : String
  caption : String
deriving Repr, DecidableEq

/-- One `update_record_status` patch call against the Reels Generation
table: (record id, new status, optional video url uploaded with it). -/
structure RecPatch where
  record_id : Nat
  status : String
  video_url : Option String
deriving Repr, DecidableEq

/-- One Telegram message per `send_telegram_message` call site in the
embedded handlers; the payload fields are the ones interpolated into the
message text, and the audience is the explicit chat id (`none` = the default
`TELEGRAM_CHAT_IDS`). -/
inductive Notification where
  /-- handlers.py lines 150-155: polling fallback failed. -/
  | pollFailed (uuid : String) (err : String) (audience : Option String)
  /-- handlers.py lines 215-222: full success message. -/
  | generationComplete (url caption : String) (schedule : Int)
      (page : String) (audience : Option String)
  /-- handlers.py lines 228-233: video ready but the save/notify pipeline
  threw after the record mutation. -/
  | videoReadySaveFailed (url : String) (err : PyError) (audience : Option String)
  /-- handlers.py lines 287-293: vendor reported failure for a tracked job. -/
  | generationFailed (uuid : Option String) (err code : String)
      (audience : Option String)
  /-- handlers.py lines 299-305: vendor reported failure for a job found
  neither in memory nor in Baserow (always default audience). -/
  | untrackedJobError (uuid : Option String) (err code : String)
  /-- handlers.py lines 373-377: aggregate restart message. -/
  | botRestarted (count : Nat)
  /-- handlers.py lines 416-419: sweep found a Processing record without a
  stored UUID. -/
  | recordStuckNoUuid (record_id : Nat)
  /-- handlers.py lines 447-450: vendor says completed but no URL found. -/
  | completedNoVideoUrl (uuid : String)
  /-- handlers.py lines 458-463: sweep found the job failed. -/
  | sweepGenerationFailed (uuid err : String)
  /-- handlers.py lines 479-484: sweep timed the job out; carries the age in
  seconds (the source prints it in minutes). -/
  | jobTimedOut (uuid : String) (ageSeconds : Int)
  /-- handlers.py lines 499-505: per-cycle sweep summary. -/
  | sweepSummary (completed failed timeout : Nat)
deriving Repr, DecidableEq

/-- The whole machine state: the `pending_jobs` dict, the Reels Generation
table, the Post Queue table, plus traces of the outward effects (messages
sent, record patches issued, generation-vendor status/poll calls made, and
background polling tasks spawned with `asyncio.create_task`). -/
structure BotState where
  pending_jobs : List (String × Job)
  records : List Record
  postQueue : List PostRecord
  notifications : List Notification
  patches : List RecPatch
  vendorCalls : List String
  spawned : List String
deriving Repr, DecidableEq

/-- External collaborators the handlers consume: the caption vendor
(`generate_caption`, which never raises — it returns a fallback caption on
any error), the generation vendor's status endpoint, and the polling helper
`poll_for_completion` (returns a video url or raises). -/
structure GeneratedVideo where
  video_url : Option String
  file_download_url : Option String
deriving Repr, DecidableEq

/-- Normalized vendor status snapshot: `status` is 1=processing, 2=completed,
3=failed as documented at `sora_api.py` line 74; `generated_video` is the
alternative response shape consulted at `handlers.py` lines 436-443. -/
structure StatusInfo where
  status : Nat
  media_url : Option String
  error_message : Option String
  generated_video : List GeneratedVideo
deriving Repr, DecidableEq

structure Env where
  captionOf : String → String
  vendorStatus : String → StatusInfo
  pollResult : String → Except String String

/-! ## Python dict operations on `pending_jobs` -/

/-- `pending_jobs.get(uuid)`. -/
def dictGet (k : String) (d : List (String × Job)) : Option Job :=
  (d.find? (fun p => p.1 == k)).map (·.2)

/-- `del pending_jobs[uuid]` guarded by `if uuid in pending_jobs` (removal of
an absent key is the identity). -/
def dictRemove (k : String) (d : List (String × Job)) : List (String × Job) :=
  d.filter (fun p => p.1 != k)

/-- `pending_jobs[uuid] = job` (replace in place, else append — CPython dict
insertion order). -/
def dictSet (k : String) (v : Job) (d : List (String × Job)) : List (String × Job) :=
  if (d.find? (fun p => p.1 == k)).isSome then
    d.map (fun p => if p.1 == k then (k, v) else p)
  else d ++ [(k, v)]

/-- `job['status'] = st` where `job` is the dict object fetched from
`pending_jobs` (mutation through the shared reference; a no-op on the dict if
the key is absent, i.e. when the job was reconstructed from Baserow). -/
def dictMutStatus (k : String) (st : String) (d : List (String × Job)) :
    List (String × Job) :=
  d.map (fun p => if p.1 == k then (p.1, { p.2 with status := some st }) else p)

/-- `job['status'] = 'failed'; job['error'] = str(e)` (handlers.py 146-147). -/
def dictMutFail (k : String) (e : String) (d : List (String × Job)) :
    List (String × Job) :=
  d.map (fun p =>
    if p.1 == k then (p.1, { p.2 with status := some "failed", error := some e })
    else p)

/-! ## helpers.py / baserow_client.py operations -/

/-- `POSTING_TIMES = [8, 21]` (config.py line 75). -/
def POSTING_TIMES : List Nat := [8, 21]

/-- Cambodia timezone offset, UTC+7, in minutes (config.py line 72). -/
def CAMBODIA_OFFSET_MIN : Int := 7 * 60

/-- The slot-search loop of `get_next_available_slot` (helpers.py lines
49-76), at minute granularity: scan 30 days of `POSTING_TIMES` slots in
Cambodia wall time, skip past or taken slots, else fall back to tomorrow's
first slot.  Times are minutes since the epoch. -/
def slotSearch (now_utc : Int) (scheduled_slots : List Int) : Int :=
  let now_cambodia := now_utc + CAMBODIA_OFFSET_MIN
  let day0 := (now_cambodia.fdiv 1440) * 1440
  let candidates :=
    ((List.range 30).map (fun d =>
      POSTING_TIMES.map (fun h => day0 + (d : Int) * 1440 + (h : Int) * 60))).flatten
  match candidates.find?
      (fun slot => slot > now_cambodia && !(scheduled_slots.contains slot)) with
  | some slot => slot
  | none => ((now_cambodia + 1440).fdiv 1440) * 1440 + (POSTING_TIMES.headD 8 : Int) * 60

/-- `get_next_available_slot` (helpers.py lines 40-76).  Its first statement
(line 43) evaluates the module-global names `datetime` and then `timezone`;
a name that does not resolve raises `NameError` before any slot is
computed. -/
def get_next_available_slot (now_utc : Int) (scheduled_slots : List Int)
    (_page_id : String) : Except PyError Int :=
  match firstUnresolved helpersResolves getNextAvailableSlotFreeNames with
  | some n => .error (.nameError n)
  | none => .ok (slotSearch now_utc scheduled_slots)

/-- `REELS_STATUS_OPTIONS` (config.py lines 44-49). -/
def REELS_STATUS_OPTIONS : List (String × Nat) :=
  [("Draft", 3054), ("Processing", 3055), ("Completed", 3056), ("Error", 3057)]

/-- `get_record_by_uuid` (baserow_client.py lines 65-94): first row whose
`Generation UUID` equals `uuid` — with NO condition on the row's status. -/
def get_record_by_uuid (s : BotState) (uuid : String) : Option Record :=
  (s.records.filter (fun r => r.genUuid == some uuid)).head?

/-- `get_records_by_status` (baserow_client.py lines 97-130): the
single-select filter is attached only when the status has a known option id;
otherwise the unfiltered listing is returned. -/
def get_records_by_status (s : BotState) (status : String) : List Record :=
  if (REELS_STATUS_OPTIONS.find? (fun p => p.1 == status)).isSome then
    s.records.filter (fun r => r.status == status)
  else s.records

/-- The server-assigned name of the file uploaded by
`upload_video_to_baserow` (baserow_client.py line 201: the form field is
named `video_<record_id>.mp4`). -/
def uploadedFileName (record_id : Nat) : String :=
  "video_" ++ toString record_id ++ ".mp4"

/-- `update_record_status` (baserow_client.py lines 303-342) at the
record-table level, assuming the HTTP layer succeeds (its 401-retry control
flow is modelled separately below): patch the row's status; when a video url
is supplied, also upload the video, attach it, and uncheck
`Ready To Generate` (lines 316-320).  The call is recorded on the patch
trace. -/
def update_record_status (s : BotState) (record_id : Nat) (status : String)
    (video_url : Option String) : BotState :=
  { s with
    patches := s.patches ++ [⟨record_id, status, video_url⟩],
    records := s.records.map (fun r =>
      if r.id == record_id then
        match video_url with
        | some _ => { r with status := status,
                             video := some (uploadedFileName record_id),
                             readyToGenerate := false }
        | none => { r with status := status }
      else r) }

/-- Appending one Telegram message (`send_telegram_message` is fire-and-
forget: it catches every error internally, telegram_client.py lines 33-44). -/
def notify (s : BotState) (n : Notification) : BotState :=
  { s with notifications := s.notifications ++ [n] }

/-- `create_post_queue_record` (baserow_client.py lines 345-417): collect the
`Schedule For` slots of currently Scheduled posts (lines 357-375, errors
swallowed), then call `get_next_available_slot` (line 378) OUTSIDE any
`try` — so its `NameError` propagates — and only then create the row. -/
def create_post_queue_record (now : Int) (s : BotState) (source_record_id : Nat)
    (page_id : Option Nat) (video_url caption : String) :
    Except PyError (BotState × Int) := do
  let scheduled_slots := s.postQueue.filterMap
    (fun p => if p.status == "Scheduled" then some p.scheduleFor else none)
  let pageStr := match page_id with | some p => toString p | none => "None"
  let schedule_time ← get_next_available_slot now scheduled_slots pageStr
  let newRow : PostRecord :=
    { sourceReel := toString source_record_id,
      pageIds := match page_id with | some p => [p] | none => [],
      videoUrl := video_url,
      scheduleFor := schedule_time,
      status := "Scheduled",
      caption := caption }
  return ({ s with postQueue := s.postQueue ++ [newRow] }, schedule_time)

/-! ## handlers.py -/

/-- Job reconstruction from a Baserow row in the crash-recovery fallback of
`complete_video_generation` (handlers.py lines 170-185): target page taken
from the link-row field, `chat_id` lost (default audience). -/
def reconstructJobForCompletion (r : Record) : Job :=
  match r.targetPage.head? with
  | some p =>
    { record_id := r.id, prompt := r.prompt, page_id := some p.1,
      page_name := p.2, status := none, chat_id := none,
      started_at := none, error := none }
  | none =>
    { record_id := r.id, prompt := r.prompt, page_id := none,
      page_name := "Unknown", status := none, chat_id := none,
      started_at := none, error := none }

/-- Job reconstruction in the failure branch of `handle_sora_webhook`
(handlers.py lines 277-281): the source dict carries only `record_id`,
`prompt` and `chat_id`; the page fields are never read on this path. -/
def reconstructJobForFailure (r : Record) : Job :=
  { record_id := r.id, prompt := r.prompt, page_id := none,
    page_name := "Unknown", status := none, chat_id := none,
    started_at := none, error := none }

/-- Steps 1-2 of the reconciler inside `complete_video_generation`
(handlers.py lines 163-189): registry lookup, then Baserow fallback. -/
def resolveJobForCompletion (s : BotState) (uuid : String) : Option Job :=
  match dictGet uuid s.pending_jobs with
  | some j => some j
  | none => (get_record_by_uuid s uuid).map reconstructJobForCompletion

/-- `complete_video_generation` (handlers.py lines 160-237): resolve the job
(or log-and-return), then `try`: patch the record to Completed with the
video, generate a caption, create the Post Queue row, send the success
message, mark the job completed; `except`: send the degraded
"Video ready but save failed" message; `finally`: drop the uuid from
`pending_jobs`. -/
def complete_video_generation (env : Env) (now : Int) (s : BotState)
    (uuid video_url : String) : BotState :=
  match resolveJobForCompletion s uuid with
  | none => s
  | some job =>
    let s1 := update_record_status s job.record_id "Completed" (some video_url)
    let caption := env.captionOf job.prompt
    let s2 :=
      match create_post_queue_record now s1 job.record_id job.page_id
          video_url caption with
      | .ok (s1', schedule_time) =>
        let s1'' := notify s1' (.generationComplete video_url caption
          schedule_time job.page_name job.chat_id)
        { s1'' with pending_jobs := dictMutStatus uuid "completed" s1''.pending_jobs }
      | .error e =>
        notify s1 (.videoReadySaveFailed video_url e job.chat_id)
    { s2 with pending_jobs := dictRemove uuid s2.pending_jobs }

/-- `poll_and_complete` (handlers.py lines 132-157): the polling fallback;
on success hand over to `complete_video_generation`, on a polling error mark
the job failed, patch the record to Error, notify, and delete the job. -/
def poll_and_complete (env : Env) (now : Int) (s : BotState) (uuid : String) :
    BotState :=
  match dictGet uuid s.pending_jobs with
  | none => s
  | some job =>
    let s0 := { s with vendorCalls := s.vendorCalls ++ [uuid] }
    match env.pollResult uuid with
    | .ok video_url => complete_video_generation env now s0 uuid video_url
    | .error e =>
      let s1 := { s0 with pending_jobs := dictMutFail uuid e s0.pending_jobs }
      let s2 := update_record_status s1 job.record_id "Error" none
      let s3 := notify s2 (.pollFailed uuid e job.chat_id)
      { s3 with pending_jobs := dictRemove uuid s3.pending_jobs }

/-- A webhook delivery as the handler reads it from the request body
(handlers.py lines 250-266): the event name, the uuid, and the optional
payload fields (`Option.none` also stands for Python's falsy `''`). -/
inductive WebhookSignal where
  | completed (uuid : Option String) (media_url : Option String)
  | failed (uuid : Option String) (error_message : Option String)
      (error_code : Option String)
  | other (event : String)
deriving Repr, DecidableEq

/-- `handle_sora_webhook` (handlers.py lines 240-316), state effect (the
HTTP 200 acknowledgment is unconditional and not modelled).  The
`VIDEO_GENERATION_FAILED` branch mirrors lines 264-305: registry lookup,
Baserow fallback (again with no status condition), then either patch to
Error + notify + delete, or the untracked-job notification to the default
audience.  Unknown events are ignored. -/
def handle_sora_webhook (env : Env) (now : Int) (s : BotState)
    (sig : WebhookSignal) : BotState :=
  match sig with
  | .completed uuid? media_url? =>
    match uuid?, media_url? with
    | some uuid, some url => complete_video_generation env now s uuid url
    | _, _ => s
  | .failed uuid? error_message? error_code? =>
    let error_msg := error_message?.getD "Unknown error"
    let error_code := error_code?.getD ""
    let job0 := match uuid? with
      | some u => dictGet u s.pending_jobs
      | none => none
    let job? := match job0, uuid? with
      | none, some u => (get_record_by_uuid s u).map reconstructJobForFailure
      | j, _ => j
    match job? with
    | some job =>
      let s1 := update_record_status s job.record_id "Error" none
      let s2 := notify s1 (.generationFailed uuid? error_msg error_code job.chat_id)
      match uuid? with
      | some u => { s2 with pending_jobs := dictRemove u s2.pending_jobs }
      | none => s2
    | none =>
      notify s (.untrackedJobError uuid? error_msg error_code)
  | .other _ => s

/-- Per-record body of `recover_pending_jobs` (handlers.py lines 341-371):
a Processing row without a stored UUID is patched to Error (with only a log
line — no message is sent); a row with a UUID is reinserted into
`pending_jobs` in `recovering` state and a background `poll_and_complete`
task is spawned (recorded on the `spawned` trace, not executed inline). -/
def recoverRecord (now : Int) (s : BotState) (r : Record) : BotState :=
  match r.genUuid with
  | none => update_record_status s r.id "Error" none
  | some uuid =>
    let job : Job :=
      match r.targetPage.head? with
      | some p =>
        { record_id := r.id, prompt := r.prompt, page_id := some p.1,
          page_name := p.2, status := some "recovering", chat_id := none,
          started_at := some now, error := none }
      | none =>
        { record_id := r.id, prompt := r.prompt, page_id := none,
          page_name := "Unknown", status := some "recovering", chat_id := none,
          started_at := some now, error := none }
    { s with pending_jobs := dictSet uuid job s.pending_jobs,
             spawned := s.spawned ++ [uuid] }

/-- `recover_pending_jobs` (handlers.py lines 328-380): the startup
rehydrator.  Fetch all Processing rows; if none, do nothing; else process
each and send the single aggregate restart message. -/
def recover_pending_jobs (now : Int) (s : BotState) : BotState :=
  let processing_records := get_records_by_status s "Processing"
  if processing_records.isEmpty then s
  else
    let s' := processing_records.foldl (recoverRecord now) s
    notify s' (.botRestarted processing_records.length)

/-- `STALE_THRESHOLD_MINUTES = 30` (handlers.py line 393). -/
def STALE_THRESHOLD_MINUTES : Int := 30

structure SweepCounts where
  completed : Nat
  failed : Nat
  timeout : Nat
deriving Repr, DecidableEq

/-- Per-record body of the sweep loop in `cleanup_stale_jobs` (handlers.py
lines 408-494).  The vendor status comes from `env.vendorStatus` — modelled
from the spec: the called name `check_job_status` is imported at handlers.py
line 15 but defined nowhere in the source (see `importHandlersFromSoraApi`),
so this oracle stands for the spec's `fetchStatus(jobId) -> StatusSnapshot`
contract.  `age_minutes > STALE_THRESHOLD_MINUTES` over real-valued minutes
is exactly `now - t > STALE_THRESHOLD_MINUTES * 60` over integer seconds. -/
def sweepRecord (env : Env) (now : Int) (acc : BotState × SweepCounts)
    (r : Record) : BotState × SweepCounts :=
  let s := acc.1
  let c := acc.2
  match r.genUuid with
  | none =>
    -- lines 412-421: no UUID, mark Error and notify
    let s1 := update_record_status s r.id "Error" none
    (notify s1 (.recordStuckNoUuid r.id), { c with timeout := c.timeout + 1 })
  | some uuid =>
    let s0 := { s with vendorCalls := s.vendorCalls ++ [uuid] }
    let info := env.vendorStatus uuid
    if info.status == 2 then
      -- lines 428-451
      match info.media_url with
      | some url =>
        (complete_video_generation env now s0 uuid url,
         { c with completed := c.completed + 1 })
      | none =>
        let fallbackUrl := match info.generated_video.head? with
          | some g => match g.video_url with
            | some u => some u
            | none => g.file_download_url
          | none => none
        match fallbackUrl with
        | some url =>
          (complete_video_generation env now s0 uuid url,
           { c with completed := c.completed + 1 })
        | none =>
          let s1 := update_record_status s0 r.id "Error" none
          (notify s1 (.completedNoVideoUrl uuid), { c with failed := c.failed + 1 })
    else if info.status == 3 then
      -- lines 453-467
      let error_msg := info.error_message.getD "Unknown error"
      let s1 := update_record_status s0 r.id "Error" none
      let s2 := notify s1 (.sweepGenerationFailed uuid error_msg)
      ({ s2 with pending_jobs := dictRemove uuid s2.pending_jobs },
       { c with failed := c.failed + 1 })
    else if info.status == 1 then
      -- lines 469-490: timeout check against the in-memory started_at
      match dictGet uuid s0.pending_jobs with
      | some job =>
        match job.started_at with
        | some t =>
          if now - t > STALE_THRESHOLD_MINUTES * 60 then
            let s1 := update_record_status s0 r.id "Error" none
            let s2 := notify s1 (.jobTimedOut uuid (now - t))
            ({ s2 with pending_jobs := dictRemove uuid s2.pending_jobs },
             { c with timeout := c.timeout + 1 })
          else (s0, c)
        | none => (s0, c)
      | none => (s0, c)
    else (s0, c)

/-- One cycle of `cleanup_stale_jobs` (handlers.py lines 398-506): snapshot
the Processing rows, run the per-record body over them, then send the
aggregate summary iff anything was acted on. -/
def cleanup_stale_jobs_cycle (env : Env) (now : Int) (s : BotState) : BotState :=
  let processing_records := get_records_by_status s "Processing"
  let res := processing_records.foldl (sweepRecord env now) (s, ⟨0, 0, 0⟩)
  if res.2.completed + res.2.failed + res.2.timeout > 0 then
    notify res.1 (.sweepSummary res.2.completed res.2.failed res.2.timeout)
  else res.1

/-! ## baserow_client.py HTTP control flow (401 handling)

Each function below is the request/retry skeleton of the corresponding
`baserow_client.py` coroutine: `resp i` is the HTTP status of its i-th
request to Baserow, and the result records whether the call succeeded, how
many requests it made, and how many times it called `clear_token_cache`
(the credential refresh).  Response bodies are irrelevant to the retry
logic and are not modelled. -/

structure HttpOutcome where
  ok : Bool
  requests : Nat
  clears : Nat
deriving Repr, DecidableEq

/-- `update_record_status` retry loop (baserow_client.py lines 322-342):
`for attempt in range(2)`: 200/201 succeed; a 401 on attempt 0 clears the
token cache and retries; anything else — including a 401 on attempt 1 —
fails. -/
def updateRecordStatusHttp (resp : Nat → Nat) : HttpOutcome :=
  let s0 := resp 0
  if s0 == 200 || s0 == 201 then ⟨true, 1, 0⟩
  else if s0 == 401 then
    let s1 := resp 1
    if s1 == 200 || s1 == 201 then ⟨true, 2, 1⟩ else ⟨false, 2, 1⟩
  else ⟨false, 1, 0⟩

/-- `save_generation_uuid` retry loop (lines 138-156): same skeleton. -/
def saveGenerationUuidHttp (resp : Nat → Nat) : HttpOutcome :=
  let s0 := resp 0
  if s0 == 200 || s0 == 201 then ⟨true, 1, 0⟩
  else if s0 == 401 then
    let s1 := resp 1
    if s1 == 200 || s1 == 201 then ⟨true, 2, 1⟩ else ⟨false, 2, 1⟩
  else ⟨false, 1, 0⟩

/-- `get_record_by_uuid` retry loop (lines 74-94): a 401 on attempt 0 clears
and retries; any other non-200 returns None. -/
def getRecordByUuidHttp (resp : Nat → Nat) : HttpOutcome :=
  let s0 := resp 0
  if s0 == 401 then
    let s1 := resp 1
    if s1 == 200 then ⟨true, 2, 1⟩ else ⟨false, 2, 1⟩
  else if s0 == 200 then ⟨true, 1, 0⟩
  else ⟨false, 1, 0⟩

/-- `get_records_by_status` retry loop (lines 111-130): same skeleton as
`get_record_by_uuid`. -/
def getRecordsByStatusHttp (resp : Nat → Nat) : HttpOutcome :=
  let s0 := resp 0
  if s0 == 401 then
    let s1 := resp 1
    if s1 == 200 then ⟨true, 2, 1⟩ else ⟨false, 2, 1⟩
  else if s0 == 200 then ⟨true, 1, 0⟩
  else ⟨false, 1, 0⟩

/-- `get_page_name` (lines 158-176): a SINGLE request; any non-200 response —
a 401 included — returns the fallback name with no token refresh and no
retry. -/
def getPageNameHttp (resp : Nat → Nat) : HttpOutcome :=
  let s0 := resp 0
  if s0 != 200 then ⟨false, 1, 0⟩ else ⟨true, 1, 0⟩

/-- `upload_video_to_baserow` (lines 179-218): one download request, then one
upload request; no 401 handling and no retry on either. -/
def uploadVideoToBaserowHttp (resp : Nat → Nat) : HttpOutcome :=
  let dl := resp 0
  if dl != 200 then ⟨false, 1, 0⟩
  else
    let up := resp 1
    if up == 200 || up == 201 then ⟨true, 2, 0⟩ else ⟨false, 2, 0⟩

/-! ## Concrete fixtures

Small concrete environments and states used to evaluate the embedded
handlers at specific inputs. -/

/-- An environment whose vendor always reports status 1 (still processing),
whose caption vendor returns a fixed caption, and whose polling helper
fails. -/
def envA : Env :=
  { captionOf := fun _ => "Check this out!",
    vendorStatus := fun _ => { status := 1, media_url := none,
                               error_message := none, generated_video := [] },
    pollResult := fun _ => .error "poll failed" }

/-- A Processing row with a stored generation UUID. -/
def recA : Record :=
  { id := 1, status := "Processing", genUuid := some "abc123",
    prompt := "a cat skateboarding", targetPage := [(7, "MyPage")],
    readyToGenerate := true, video := none }

/-- The in-memory registry entry submission would create for `recA`. -/
def jobA : Job :=
  { record_id := 1, prompt := "a cat skateboarding", page_id := some 7,
    page_name := "MyPage", status := some "generating", chat_id := none,
    started_at := some 1000, error := none }

/-- State right after submitting `recA`: one tracked job, clean traces. -/
def stA : BotState :=
  { pending_jobs := [("abc123", jobA)], records := [recA], postQueue := [],
    notifications := [], patches := [], vendorCalls := [], spawned := [] }

/-- A Processing row that never got a generation UUID persisted. -/
def recB : Record :=
  { id := 2, status := "Processing", genUuid := none, prompt := "p",
    targetPage := [], readyToGenerate := true, video := none }

/-- State containing only the UUID-less Processing row. -/
def stB : BotState :=
  { pending_jobs := [], records := [recB], postQueue := [],
    notifications := [], patches := [], vendorCalls := [], spawned := [] }

/-- The empty state: no tracked jobs, no rows. -/
def stC : BotState :=
  { pending_jobs := [], records := [], postQueue := [],
    notifications := [], patches := [], vendorCalls := [], spawned := [] }

/-! ## Derived observations and basic lemmas -/

/-- Status of the (first) Reels Generation row with the given id. -/
def recordStatus (s : BotState) (rid : Nat) : Option String :=
  (s.records.find? (fun r => r.id == rid)).map (·.status)

/-- The per-row patch function of `update_record_status`. -/
def patchRow (record_id : Nat) (status : String) (video_url : Option String)
    (r : Record) : Record :=
  if r.id == record_id then
    match video_url with
    | some _ => { r with status := status,
                         video := some (uploadedFileName record_id),
                         readyToGenerate := false }
    | none => { r with status := status }
  else r

/-- Status lookup in a bare record list. -/
def statusOf (l : List Record) (rid : Nat) : Option String :=
  (l.find? (fun r => r.id == rid)).map (·.status)

/-- Every `pending_jobs` entry pointing at row `rId` has key `u`, and every
table row with id `rId` carries generation UUID `u`. -/
def SweepInv (rId : Nat) (u : String) (s : BotState) : Prop :=
  (∀ p ∈ s.pending_jobs, p.2.record_id = rId → p.1 = u) ∧
  (∀ r' ∈ s.records, r'.id = rId → r'.genUuid = some u)

/-- `s'` preserves, relative to `s`, everything the designated job's fate
depends on: the invariant, its pending entry, its row status, and all
notifications already sent. -/
def Preserves (rId : Nat) (u : String) (s s' : BotState) : Prop :=
  SweepInv rId u s →
    SweepInv rId u s' ∧
    dictGet u s'.pending_jobs = dictGet u s.pending_jobs ∧
    recordStatus s' rId = recordStatus s rId ∧
    ∀ n ∈ s.notifications, n ∈ s'.notifications


theorem dictGet_nil (k : String) : dictGet k [] = none := rfl

theorem dictGet_cons (k : String) (a : String × Job) (t : List (String × Job)) :
    dictGet k (a :: t) = if a.1 = k then some a.2 else dictGet k t := by
  by_cases h : a.1 = k
  · rw [if_pos h]
    unfold dictGet
    rw [List.find?_cons_of_pos _ (by simpa using h)]
    rfl
  · rw [if_neg h]
    unfold dictGet
    rw [List.find?_cons_of_neg _ (by simpa using h)]

theorem dictRemove_cons (k : String) (a : String × Job) (t : List (String × Job)) :
    dictRemove k (a :: t) = if a.1 = k then dictRemove k t else a :: dictRemove k t := by
  by_cases h : a.1 = k <;> simp [dictRemove, List.filter_cons, h]

theorem dictMutStatus_cons (k st : String) (a : String × Job)
    (t : List (String × Job)) :
    dictMutStatus k st (a :: t) =
      (if a.1 = k then (a.1, { a.2 with status := some st }) else a)
        :: dictMutStatus k st t := by
  by_cases h : a.1 = k <;> simp [dictMutStatus, h]

theorem dictMutFail_cons (k e : String) (a : String × Job)
    (t : List (String × Job)) :
    dictMutFail k e (a :: t) =
      (if a.1 = k then (a.1, { a.2 with status := some "failed", error := some e })
       else a) :: dictMutFail k e t := by
  by_cases h : a.1 = k <;> simp [dictMutFail, h]

theorem dictGet_dictRemove_self (k : String) (d : List (String × Job)) :
    dictGet k (dictRemove k d) = none := by
  induction d with
  | nil => rfl
  | cons a t ih =>
    rw [dictRemove_cons]
    by_cases h : a.1 = k
    · rw [if_pos h]; exact ih
    · rw [if_neg h, dictGet_cons, if_neg h]; exact ih

theorem dictGet_dictRemove_ne (k k' : String) (d : List (String × Job))
    (h : k ≠ k') : dictGet k (dictRemove k' d) = dictGet k d := by
  induction d with
  | nil => rfl
  | cons a t ih =>
    rw [dictRemove_cons, dictGet_cons]
    by_cases h1 : a.1 = k'
    · have h2 : ¬a.1 = k := by rw [h1]; exact fun hk => h hk.symm
      rw [if_pos h1, if_neg h2]; exact ih
    · rw [if_neg h1, dictGet_cons]
      by_cases h2 : a.1 = k
      · rw [if_pos h2, if_pos h2]
      · rw [if_neg h2, if_neg h2]; exact ih

theorem dictGet_dictMutStatus_ne (k k' st : String) (d : List (String × Job))
    (h : k ≠ k') : dictGet k (dictMutStatus k' st d) = dictGet k d := by
  induction d with
  | nil => rfl
  | cons a t ih =>
    rw [dictMutStatus_cons, dictGet_cons, dictGet_cons]
    by_cases h1 : a.1 = k'
    · have h2 : ¬a.1 = k := by rw [h1]; exact fun hk => h hk.symm
      rw [if_pos h1]
      simp only [h2, if_false, if_neg h2]
      exact ih
    · rw [if_neg h1]
      by_cases h2 : a.1 = k
      · rw [if_pos h2, if_pos h2]
      · rw [if_neg h2, if_neg h2]; exact ih

theorem dictGet_dictMutFail_ne (k k' e : String) (d : List (String × Job))
    (h : k ≠ k') : dictGet k (dictMutFail k' e d) = dictGet k d := by
  induction d with
  | nil => rfl
  | cons a t ih =>
    rw [dictMutFail_cons, dictGet_cons, dictGet_cons]
    by_cases h1 : a.1 = k'
    · have h2 : ¬a.1 = k := by rw [h1]; exact fun hk => h hk.symm
      rw [if_pos h1]
      simp only [h2, if_false, if_neg h2]
      exact ih
    · rw [if_neg h1]
      by_cases h2 : a.1 = k
      · rw [if_pos h2, if_pos h2]
      · rw [if_neg h2, if_neg h2]; exact ih

theorem dictGet_dictMutStatus_none (k k' st : String) (d : List (String × Job))
    (h : dictGet k d = none) : dictGet k (dictMutStatus k' st d) = none := by
  induction d with
  | nil => rfl
  | cons a t ih =>
    rw [dictGet_cons] at h
    by_cases h2 : a.1 = k
    · rw [if_pos h2] at h; exact absurd h (by simp)
    · rw [if_neg h2] at h
      rw [dictMutStatus_cons, dictGet_cons]
      by_cases h1 : a.1 = k'
      · rw [if_pos h1]
        simp only [h2, if_neg h2]
        exact ih h
      · rw [if_neg h1, if_neg h2]; exact ih h

/-- Membership extraction from a successful dict lookup. -/
theorem dictGet_exists (k : String) (d : List (String × Job)) (j : Job)
    (h : dictGet k d = some j) : (k, j) ∈ d := by
  induction d with
  | nil => simp [dictGet] at h
  | cons a t ih =>
    rw [dictGet_cons] at h
    by_cases h1 : a.1 = k
    · rw [if_pos h1] at h
      have : a = (k, j) := by
        cases a
        simp at h1
        simp at h
        simp [h1, h]
      rw [← this]
      exact List.mem_cons_self a t
    · rw [if_neg h1] at h
      exact List.mem_cons_of_mem a (ih h)

/-- `dictRemove` only drops entries. -/
theorem mem_of_mem_dictRemove (k : String) (d : List (String × Job)) (p)
    (h : p ∈ dictRemove k d) : p ∈ d :=
  List.mem_of_mem_filter h

/-- After a status mutation every entry keeps its key and its `record_id`. -/
theorem mem_dictMutStatus_entry (k' st : String) (d : List (String × Job)) (p)
    (h : p ∈ dictMutStatus k' st d) :
    ∃ q ∈ d, q.1 = p.1 ∧ q.2.record_id = p.2.record_id := by
  rcases List.mem_map.mp h with ⟨q, hq, hfq⟩
  by_cases h1 : q.1 = k'
  · simp only [h1, beq_self_eq_true, if_true] at hfq
    exact ⟨q, hq, by rw [← hfq, h1], by rw [← hfq]⟩
  · have h1' : (q.1 == k') = false := by simpa using h1
    simp only [h1', Bool.false_eq_true, if_false] at hfq
    exact ⟨q, hq, by rw [hfq], by rw [hfq]⟩

theorem update_record_status_records (s : BotState) (record_id : Nat)
    (status : String) (video_url : Option String) :
    (update_record_status s record_id status video_url).records
      = s.records.map (patchRow record_id status video_url) := rfl

theorem patchRow_id (record_id : Nat) (status : String)
    (video_url : Option String) (r : Record) :
    (patchRow record_id status video_url r).id = r.id := by
  unfold patchRow
  by_cases h : r.id = record_id
  · simp only [h, beq_self_eq_true, if_true]
    cases video_url <;> rfl
  · have h' : (r.id == record_id) = false := by simpa using h
    simp [h']

theorem patchRow_genUuid (record_id : Nat) (status : String)
    (video_url : Option String) (r : Record) :
    (patchRow record_id status video_url r).genUuid = r.genUuid := by
  unfold patchRow
  by_cases h : r.id = record_id
  · simp only [h, beq_self_eq_true, if_true]
    cases video_url <;> rfl
  · have h' : (r.id == record_id) = false := by simpa using h
    simp [h']

theorem patchRow_ne (record_id : Nat) (status : String)
    (video_url : Option String) (r : Record) (h : r.id ≠ record_id) :
    patchRow record_id status video_url r = r := by
  unfold patchRow
  have h' : (r.id == record_id) = false := by simpa using h
  simp [h']

theorem patchRow_status_eq (record_id : Nat) (status : String)
    (video_url : Option String) (r : Record) (h : r.id = record_id) :
    (patchRow record_id status video_url r).status = status := by
  unfold patchRow
  simp only [h, beq_self_eq_true, if_true]
  cases video_url <;> rfl

theorem recordStatus_eq_statusOf (s : BotState) (rid : Nat) :
    recordStatus s rid = statusOf s.records rid := rfl

theorem statusOf_cons (rid : Nat) (a : Record) (t : List Record) :
    statusOf (a :: t) rid = if a.id = rid then some a.status else statusOf t rid := by
  by_cases h : a.id = rid
  · rw [if_pos h]
    unfold statusOf
    rw [List.find?_cons_of_pos _ (by simpa using h)]
    rfl
  · rw [if_neg h]
    unfold statusOf
    rw [List.find?_cons_of_neg _ (by simpa using h)]

/-- Patching a different row id leaves a status lookup unchanged. -/
theorem statusOf_map_patchRow_ne (l : List Record) (rid record_id : Nat)
    (status : String) (video_url : Option String) (h : rid ≠ record_id) :
    statusOf (l.map (patchRow record_id status video_url)) rid = statusOf l rid := by
  induction l with
  | nil => rfl
  | cons a t ih =>
    rw [List.map_cons, statusOf_cons, statusOf_cons, patchRow_id]
    by_cases h2 : a.id = rid
    · rw [if_pos h2, if_pos h2, patchRow_ne]
      rw [h2]
      exact h
    · rw [if_neg h2, if_neg h2]; exact ih

/-- Patching the looked-up row id rewrites the status (if the row exists). -/
theorem statusOf_map_patchRow_self (l : List Record) (record_id : Nat)
    (status : String) (video_url : Option String) (st₀ : String)
    (h : statusOf l record_id = some st₀) :
    statusOf (l.map (patchRow record_id status video_url)) record_id = some status := by
  induction l with
  | nil => simp [statusOf] at h
  | cons a t ih =>
    rw [statusOf_cons] at h
    rw [List.map_cons, statusOf_cons, patchRow_id]
    by_cases h2 : a.id = record_id
    · rw [if_pos h2, patchRow_status_eq _ _ _ _ h2]
    · rw [if_neg h2] at h
      rw [if_neg h2]
      exact ih h

theorem recordStatus_update_ne (s : BotState) (rid record_id : Nat)
    (status : String) (video_url : Option String) (h : rid ≠ record_id) :
    recordStatus (update_record_status s record_id status video_url) rid
      = recordStatus s rid := by
  rw [recordStatus_eq_statusOf, recordStatus_eq_statusOf,
    update_record_status_records]
  exact statusOf_map_patchRow_ne _ _ _ _ _ h

theorem recordStatus_update_self (s : BotState) (record_id : Nat)
    (status : String) (video_url : Option String) (st₀ : String)
    (h : recordStatus s record_id = some st₀) :
    recordStatus (update_record_status s record_id status video_url) record_id
      = some status := by
  rw [recordStatus_eq_statusOf, update_record_status_records]
  exact statusOf_map_patchRow_self _ _ _ _ _ h

/-- Rows after an update keep their `id` and `genUuid` (pointwise preimage). -/
theorem mem_update_records (s : BotState) (record_id : Nat) (status : String)
    (video_url : Option String) (r' : Record)
    (h : r' ∈ (update_record_status s record_id status video_url).records) :
    ∃ r₀ ∈ s.records, r₀.id = r'.id ∧ r₀.genUuid = r'.genUuid := by
  rw [update_record_status_records] at h
  rcases List.mem_map.mp h with ⟨r₀, hr₀, hpr⟩
  exact ⟨r₀, hr₀, by rw [← hpr, patchRow_id], by rw [← hpr, patchRow_genUuid]⟩

/-- A row found by generation UUID is a member and carries that UUID. -/
theorem get_record_by_uuid_spec (s : BotState) (u : String) (r' : Record)
    (h : get_record_by_uuid s u = some r') :
    r' ∈ s.records ∧ r'.genUuid = some u := by
  unfold get_record_by_uuid at h
  cases hl : s.records.filter (fun r => r.genUuid == some u) with
  | nil => rw [hl] at h; simp at h
  | cons a t =>
    rw [hl] at h
    simp only [List.head?_cons, Option.some.injEq] at h
    have ha : a ∈ s.records.filter (fun r => r.genUuid == some u) := by
      rw [hl]; exact List.mem_cons_self a t
    rcases List.mem_filter.mp ha with ⟨hmem, hpred⟩
    subst h
    exact ⟨hmem, by simpa using hpred⟩

theorem get_record_by_uuid_none (s : BotState) (u : String)
    (h : ∀ r ∈ s.records, r.genUuid ≠ some u) :
    get_record_by_uuid s u = none := by
  unfold get_record_by_uuid
  have : s.records.filter (fun r => r.genUuid == some u) = [] := by
    rw [List.filter_eq_nil_iff]
    intro a ha
    simpa using h a ha
  rw [this]
  rfl

/-! ## The NameError in the completion pipeline and its consequences -/

theorem get_next_available_slot_error (now_utc : Int) (scheduled_slots : List Int)
    (page_id : String) :
    get_next_available_slot now_utc scheduled_slots page_id
      = .error (.nameError "timezone") := rfl

theorem create_post_queue_record_error (now : Int) (s : BotState)
    (source_record_id : Nat) (page_id : Option Nat) (video_url caption : String) :
    create_post_queue_record now s source_record_id page_id video_url caption
      = .error (.nameError "timezone") := rfl

/-- Because `create_post_queue_record` always raises `NameError: timezone`
(helpers.py line 43), `complete_video_generation` always takes the `except`
branch after the Completed patch: the run is exactly patch, degraded
notification, registry removal. -/
theorem complete_video_generation_eq (env : Env) (now : Int) (s : BotState)
    (uuid video_url : String) :
    complete_video_generation env now s uuid video_url =
      match resolveJobForCompletion s uuid with
      | none => s
      | some job =>
        let s1 := update_record_status s job.record_id "Completed" (some video_url)
        let s2 := notify s1
          (.videoReadySaveFailed video_url (.nameError "timezone") job.chat_id)
        { s2 with pending_jobs := dictRemove uuid s2.pending_jobs } := by
  unfold complete_video_generation
  cases resolveJobForCompletion s uuid with
  | none => rfl
  | some job => rfl

theorem notify_records (s : BotState) (n : Notification) :
    (notify s n).records = s.records := rfl

theorem notify_pending (s : BotState) (n : Notification) :
    (notify s n).pending_jobs = s.pending_jobs := rfl

theorem update_record_status_pending (s : BotState) (record_id : Nat)
    (status : String) (video_url : Option String) :
    (update_record_status s record_id status video_url).pending_jobs
      = s.pending_jobs := rfl

theorem complete_video_generation_pending (env : Env) (now : Int) (s : BotState)
    (uuid video_url : String) :
    (complete_video_generation env now s uuid video_url).pending_jobs =
      match resolveJobForCompletion s uuid with
      | none => s.pending_jobs
      | some _ => dictRemove uuid s.pending_jobs := by
  rw [complete_video_generation_eq]
  cases resolveJobForCompletion s uuid <;> rfl

theorem complete_video_generation_records (env : Env) (now : Int) (s : BotState)
    (uuid video_url : String) :
    (complete_video_generation env now s uuid video_url).records =
      match resolveJobForCompletion s uuid with
      | none => s.records
      | some job =>
        (update_record_status s job.record_id "Completed" (some video_url)).records := by
  rw [complete_video_generation_eq]
  cases resolveJobForCompletion s uuid <;> rfl

theorem complete_video_generation_notifications (env : Env) (now : Int)
    (s : BotState) (uuid video_url : String) :
    (complete_video_generation env now s uuid video_url).notifications =
      match resolveJobForCompletion s uuid with
      | none => s.notifications
      | some job => s.notifications
          ++ [.videoReadySaveFailed video_url (.nameError "timezone") job.chat_id] := by
  rw [complete_video_generation_eq]
  cases resolveJobForCompletion s uuid <;> rfl

theorem complete_video_generation_patches (env : Env) (now : Int)
    (s : BotState) (uuid video_url : String) :
    (complete_video_generation env now s uuid video_url).patches =
      match resolveJobForCompletion s uuid with
      | none => s.patches
      | some job => s.patches ++ [⟨job.record_id, "Completed", some video_url⟩] := by
  rw [complete_video_generation_eq]
  cases resolveJobForCompletion s uuid <;> rfl

/-- A resolved job's `record_id` is the id of a pending entry or of the row
found by UUID. -/
theorem resolveJobForCompletion_record_id (s : BotState) (u : String) (job : Job)
    (h : resolveJobForCompletion s u = some job) :
    (∃ p ∈ s.pending_jobs, p.1 = u ∧ p.2.record_id = job.record_id) ∨
    (∃ r' ∈ s.records, r'.genUuid = some u ∧ r'.id = job.record_id) := by
  unfold resolveJobForCompletion at h
  cases hd : dictGet u s.pending_jobs with
  | some j =>
    rw [hd] at h
    simp only [Option.some.injEq] at h
    exact Or.inl ⟨(u, j), dictGet_exists u _ j hd, rfl, by rw [h]⟩
  | none =>
    rw [hd] at h
    cases hg : get_record_by_uuid s u with
    | none => rw [hg] at h; simp at h
    | some r' =>
      rw [hg] at h
      simp only [Option.map_some', Option.some.injEq] at h
      rcases get_record_by_uuid_spec s u r' hg with ⟨hmem, huu⟩
      refine Or.inr ⟨r', hmem, huu, ?_⟩
      rw [← h]
      unfold reconstructJobForCompletion
      cases r'.targetPage.head? <;> rfl

/-! ## Non-interference of sweep steps with an unrelated job

To reason about one designated job (table row id `rId`, vendor uuid `u`)
through a whole sweep cycle, we track an interference invariant and show
every sweep step on an unrelated row preserves the observations that matter
to the designated job. -/

theorem Preserves.refl (rId : Nat) (u : String) (s : BotState) :
    Preserves rId u s s :=
  fun hI => ⟨hI, rfl, rfl, fun _ hn => hn⟩

theorem Preserves.trans {rId : Nat} {u : String} {s s' s'' : BotState}
    (h1 : Preserves rId u s s') (h2 : Preserves rId u s' s'') :
    Preserves rId u s s'' := by
  intro hI
  rcases h1 hI with ⟨hI', hp', hr', hn'⟩
  rcases h2 hI' with ⟨hI'', hp'', hr'', hn''⟩
  exact ⟨hI'', hp''.trans hp', hr''.trans hr', fun n hn => hn'' n (hn' n hn)⟩

theorem Preserves.notifySend (rId : Nat) (u : String) (s : BotState)
    (n : Notification) : Preserves rId u s (notify s n) := by
  intro hI
  refine ⟨⟨hI.1, hI.2⟩, rfl, rfl, fun m hm => ?_⟩
  exact List.mem_append_left _ hm

theorem Preserves.vendorCall (rId : Nat) (u : String) (s : BotState)
    (calls : List String) :
    Preserves rId u s { s with vendorCalls := calls } :=
  fun hI => ⟨⟨hI.1, hI.2⟩, rfl, rfl, fun _ hn => hn⟩

theorem Preserves.update (rId : Nat) (u : String) (s : BotState) (rid : Nat)
    (st : String) (v : Option String) (h : rid ≠ rId) :
    Preserves rId u s (update_record_status s rid st v) := by
  intro hI
  refine ⟨⟨?_, ?_⟩, rfl, recordStatus_update_ne s rId rid st v (fun e => h e.symm), fun m hm => hm⟩
  · intro p hp
    exact hI.1 p hp
  · intro r' hr' hid
    rcases mem_update_records s rid st v r' hr' with ⟨r₀, hr₀, hidEq, huuEq⟩
    rw [← huuEq]
    exact hI.2 r₀ hr₀ (by rw [hidEq]; exact hid)

theorem Preserves.removePending (rId : Nat) (u u₂ : String) (s : BotState)
    (h : u₂ ≠ u) :
    Preserves rId u s { s with pending_jobs := dictRemove u₂ s.pending_jobs } := by
  intro hI
  refine ⟨⟨?_, hI.2⟩, dictGet_dictRemove_ne u u₂ s.pending_jobs (fun e => h e.symm),
    rfl, fun _ hn => hn⟩
  intro p hp
  exact hI.1 p (mem_of_mem_dictRemove u₂ s.pending_jobs p hp)

/-- A resolved job aimed by a foreign uuid cannot target the designated row. -/
theorem resolveJob_record_id_ne (s : BotState) (u₂ : String) (rId : Nat)
    (u : String) (hne : u₂ ≠ u) (hI : SweepInv rId u s) (job : Job)
    (hj : resolveJobForCompletion s u₂ = some job) : job.record_id ≠ rId := by
  rcases resolveJobForCompletion_record_id s u₂ job hj with
    ⟨p, hp, hk, hrid⟩ | ⟨r', hr', huu, hid⟩
  · intro hEq
    exact hne (by rw [← hk]; exact hI.1 p hp (by rw [hrid]; exact hEq))
  · intro hEq
    have h2 := hI.2 r' hr' (by rw [hid]; exact hEq)
    rw [huu] at h2
    exact hne (by injection h2)

/-- Completing a foreign uuid preserves the designated job's observations. -/
theorem Preserves.complete (env : Env) (now : Int) (rId : Nat) (u u₂ : String)
    (s : BotState) (url : String) (hne : u₂ ≠ u) :
    Preserves rId u s (complete_video_generation env now s u₂ url) := by
  intro hI
  rw [complete_video_generation_eq]
  cases hj : resolveJobForCompletion s u₂ with
  | none => exact (Preserves.refl rId u s) hI
  | some job =>
    have hrid : job.record_id ≠ rId := resolveJob_record_id_ne s u₂ rId u hne hI job hj
    have step1 := Preserves.update rId u s job.record_id "Completed" (some url) hrid
    have step2 := Preserves.notifySend rId u
      (update_record_status s job.record_id "Completed" (some url))
      (.videoReadySaveFailed url (.nameError "timezone") job.chat_id)
    have step3 := Preserves.removePending rId u u₂
      (notify (update_record_status s job.record_id "Completed" (some url))
        (.videoReadySaveFailed url (.nameError "timezone") job.chat_id)) hne
    exact ((step1.trans step2).trans step3) hI

/-- A sweep step on a row other than the designated one (different id, and
not carrying the designated uuid) preserves the designated job's
observations, whatever the vendor answers. -/
theorem sweepRecord_preserves (env : Env) (now : Int) (rId : Nat) (u : String)
    (r₂ : Record) (s : BotState) (c : SweepCounts)
    (h2 : r₂.id ≠ rId) (h3 : r₂.genUuid ≠ some u) :
    Preserves rId u s (sweepRecord env now (s, c) r₂).1 := by
  unfold sweepRecord
  split
  · -- r₂.genUuid = none
    exact (Preserves.update rId u s r₂.id "Error" none h2).trans
      (Preserves.notifySend rId u _ _)
  · -- r₂.genUuid = some u₂
    rename_i u₂ hgen
    have hne : u₂ ≠ u := fun e => h3 (by rw [hgen, e])
    have hP0 : Preserves rId u s { s with vendorCalls := s.vendorCalls ++ [u₂] } :=
      Preserves.vendorCall rId u s _
    dsimp only
    split
    · -- status == 2
      split
      · -- media_url = some url
        exact hP0.trans (Preserves.complete env now rId u u₂ _ _ hne)
      · -- media_url = none, fall back to generated_video
        split
        · exact hP0.trans (Preserves.complete env now rId u u₂ _ _ hne)
        · exact hP0.trans ((Preserves.update rId u _ r₂.id "Error" none h2).trans
            (Preserves.notifySend rId u _ _))
    · split
      · -- status == 3
        exact hP0.trans (((Preserves.update rId u _ r₂.id "Error" none h2).trans
          (Preserves.notifySend rId u _ _)).trans
          (Preserves.removePending rId u u₂ _ hne))
      · split
        · -- status == 1
          split
          · split
            · split
              · -- timed out
                exact hP0.trans (((Preserves.update rId u _ r₂.id "Error" none h2).trans
                  (Preserves.notifySend rId u _ _)).trans
                  (Preserves.removePending rId u u₂ _ hne))
              · exact hP0
            · exact hP0
          · exact hP0
        · exact hP0

/-- Folding the sweep body over rows unrelated to the designated job
preserves its observations. -/
theorem foldl_sweep_preserves (env : Env) (now : Int) (rId : Nat) (u : String) :
    ∀ (l : List Record) (s : BotState) (c : SweepCounts),
      (∀ r₂ ∈ l, r₂.id ≠ rId ∧ r₂.genUuid ≠ some u) →
      Preserves rId u s (l.foldl (sweepRecord env now) (s, c)).1 := by
  intro l
  induction l with
  | nil => intro s c _; exact Preserves.refl rId u s
  | cons a t ih =>
    intro s c hl
    rw [List.foldl_cons]
    have ha := hl a (List.mem_cons_self a t)
    have hstep := sweepRecord_preserves env now rId u a s c ha.1 ha.2
    have hrest := ih (sweepRecord env now (s, c) a).1 (sweepRecord env now (s, c) a).2
      (fun r hr => hl r (List.mem_cons_of_mem a hr))
    exact hstep.trans hrest

/-- The sweep step on the designated stale job itself: with the vendor still
reporting `running` (status 1) and the registry entry over the threshold,
the step is exactly patch-to-Error, timeout notification, registry removal
(handlers.py lines 469-488). -/
theorem sweepRecord_timeout_eq (env : Env) (now : Int) (r : Record)
    (s : BotState) (c : SweepCounts) (u : String) (job : Job) (t : Int)
    (hu : r.genUuid = some u)
    (hv : (env.vendorStatus u).status = 1)
    (hjob : dictGet u s.pending_jobs = some job)
    (ht : job.started_at = some t)
    (hage : now - t > 1800) :
    sweepRecord env now (s, c) r =
      (let s0 : BotState := { s with vendorCalls := s.vendorCalls ++ [u] }
       let s1 := update_record_status s0 r.id "Error" none
       let s2 := notify s1 (.jobTimedOut u (now - t))
       ({ s2 with pending_jobs := dictRemove u s2.pending_jobs },
        { c with timeout := c.timeout + 1 })) := by
  unfold sweepRecord
  rw [hu]
  dsimp only
  have h2f : ((env.vendorStatus u).status == 2) = false := by simp [hv]
  have h3f : ((env.vendorStatus u).status == 3) = false := by simp [hv]
  have h1t : ((env.vendorStatus u).status == 1) = true := by simp [hv]
  rw [h2f, h3f, h1t]
  simp only [Bool.false_eq_true, if_false, if_true]
  rw [hjob]
  dsimp only
  rw [ht]
  dsimp only
  have h60 : STALE_THRESHOLD_MINUTES * 60 = (1800 : Int) := by
    norm_num [STALE_THRESHOLD_MINUTES]
  rw [h60, if_pos hage]

/-- Observable effects of the timeout step on the designated job. -/
theorem sweepRecord_timeout_effects (env : Env) (now : Int) (r : Record)
    (s : BotState) (c : SweepCounts) (u : String) (job : Job) (t : Int)
    (st₀ : String)
    (hu : r.genUuid = some u)
    (hv : (env.vendorStatus u).status = 1)
    (hjob : dictGet u s.pending_jobs = some job)
    (ht : job.started_at = some t)
    (hage : now - t > 1800)
    (hst : recordStatus s r.id = some st₀) :
    recordStatus (sweepRecord env now (s, c) r).1 r.id = some "Error" ∧
    dictGet u (sweepRecord env now (s, c) r).1.pending_jobs = none ∧
    (sweepRecord env now (s, c) r).1.notifications
      = s.notifications ++ [.jobTimedOut u (now - t)] ∧
    (SweepInv r.id u s → SweepInv r.id u (sweepRecord env now (s, c) r).1) := by
  rw [sweepRecord_timeout_eq env now r s c u job t hu hv hjob ht hage]
  dsimp only
  refine ⟨?_, ?_, rfl, ?_⟩
  · exact recordStatus_update_self
      { s with vendorCalls := s.vendorCalls ++ [u] } r.id "Error" none st₀ hst
  · exact dictGet_dictRemove_self u _
  · intro hI
    constructor
    · intro p hp
      exact hI.1 p (mem_of_mem_dictRemove u _ p hp)
    · intro r' hr' hid
      rcases mem_update_records { s with vendorCalls := s.vendorCalls ++ [u] }
        r.id "Error" none r' hr' with ⟨r₀, hr₀, hidEq, huuEq⟩
      rw [← huuEq]
      exact hI.2 r₀ hr₀ (by rw [hidEq]; exact hid)

/-- In a table with pairwise-distinct ids, `find?` by a member's id returns
that member. -/
theorem find?_id_of_nodup (l : List Record) (r : Record) (hr : r ∈ l)
    (hn : (l.map (fun x => x.id)).Nodup) :
    l.find? (fun x => x.id == r.id) = some r := by
  induction l with
  | nil => cases hr
  | cons a t ih =>
    rcases List.mem_cons.mp hr with h | h
    · subst h
      rw [List.find?_cons_of_pos _ (by simp)]
    · rw [List.map_cons] at hn
      have hnot : a.id ∉ t.map (fun x => x.id) := (List.nodup_cons.mp hn).1
      have hane : a.id ≠ r.id := fun he =>
        hnot (he ▸ List.mem_map_of_mem _ h)
      rw [List.find?_cons_of_neg _ (by simpa using hane)]
      exact ih h (List.nodup_cons.mp hn).2

theorem recordStatus_of_mem_nodup (s : BotState) (r : Record)
    (hr : r ∈ s.records) (hn : (s.records.map (fun x => x.id)).Nodup) :
    recordStatus s r.id = some r.status := by
  rw [recordStatus_eq_statusOf]
  unfold statusOf
  rw [find?_id_of_nodup s.records r hr hn]
  rfl

theorem get_records_by_status_processing (s : BotState) :
    get_records_by_status s "Processing"
      = s.records.filter (fun x => x.status == "Processing") := rfl

/-- C2: for every job whose stored submission timestamp is more than the
30-minute staleness threshold before `now` and whose vendor status is still
reported as running (status 1), one Stale Sweep cycle transitions the job to
timed-out: it patches the system-of-record row to the failed state
(`Error`), appends the timeout notification, and removes the job's uuid
from the in-memory registry — the job is not left pending.  The
wellformedness hypotheses (distinct row ids, the uuid stored on exactly the
job's own row, pending entries pointing at the row only under the job's
uuid) rule out aliased rows interfering within the same cycle. -/
theorem C2_stale_running_job_timed_out_by_sweep
    (env : Env) (now : Int) (s : BotState) (r : Record) (u : String)
    (job : Job) (t : Int)
    (hr : r ∈ s.records) (hst : r.status = "Processing")
    (hu : r.genUuid = some u)
    (hv : (env.vendorStatus u).status = 1)
    (hjob : dictGet u s.pending_jobs = some job)
    (ht : job.started_at = some t)
    (hage : now - t > 1800)
    (hids : (s.records.map (fun x => x.id)).Nodup)
    (huuid : ∀ r' ∈ s.records, r'.genUuid = some u → r'.id = r.id)
    (hpend : ∀ p ∈ s.pending_jobs, p.2.record_id = r.id → p.1 = u) :
    recordStatus (cleanup_stale_jobs_cycle env now s) r.id = some "Error" ∧
    dictGet u (cleanup_stale_jobs_cycle env now s).pending_jobs = none ∧
    Notification.jobTimedOut u (now - t)
      ∈ (cleanup_stale_jobs_cycle env now s).notifications := by
  have hrpl : r ∈ s.records.filter (fun x => x.status == "Processing") :=
    List.mem_filter.mpr ⟨hr, by simp [hst]⟩
  obtain ⟨l₁, l₂, hsplit⟩ := List.append_of_mem hrpl
  have hplnodup :
      ((s.records.filter (fun x => x.status == "Processing")).map
        (fun x => x.id)).Nodup :=
    List.Nodup.sublist
      (List.Sublist.map (fun x => x.id) (List.filter_sublist s.records)) hids
  have hids' : ((l₁ ++ r :: l₂).map (fun x => x.id)).Nodup := by
    rw [← hsplit]; exact hplnodup
  rw [List.map_append, List.map_cons] at hids'
  rcases List.nodup_append.mp hids' with ⟨_, hn2, hdisj⟩
  have hmemrec : ∀ x : Record, x ∈ l₁ ∨ x ∈ l₂ → x ∈ s.records := by
    intro x hx
    have hxpl : x ∈ s.records.filter (fun y => y.status == "Processing") := by
      rw [hsplit]
      rcases hx with h | h
      · exact List.mem_append_left _ h
      · exact List.mem_append_right _ (List.mem_cons_of_mem _ h)
    exact (List.mem_filter.mp hxpl).1
  have hrl₁ : ∀ x ∈ l₁, x.id ≠ r.id := by
    intro x hx he
    exact hdisj (List.mem_map_of_mem _ hx) (he ▸ List.mem_cons_self _ _)
  have hrl₂ : ∀ x ∈ l₂, x.id ≠ r.id := by
    intro x hx he
    exact (List.nodup_cons.mp hn2).1 (he ▸ List.mem_map_of_mem _ hx)
  have hcond₁ : ∀ x ∈ l₁, x.id ≠ r.id ∧ x.genUuid ≠ some u := by
    intro x hx
    exact ⟨hrl₁ x hx,
      fun hgu => hrl₁ x hx (huuid x (hmemrec x (Or.inl hx)) hgu)⟩
  have hcond₂ : ∀ x ∈ l₂, x.id ≠ r.id ∧ x.genUuid ≠ some u := by
    intro x hx
    exact ⟨hrl₂ x hx,
      fun hgu => hrl₂ x hx (huuid x (hmemrec x (Or.inr hx)) hgu)⟩
  have hI0 : SweepInv r.id u s := by
    refine ⟨hpend, ?_⟩
    intro r' hr' hid
    have hrr : r' = r := List.inj_on_of_nodup_map hids hr' hr hid
    rw [hrr, hu]
  have hst0 : recordStatus s r.id = some "Processing" := by
    rw [recordStatus_of_mem_nodup s r hr hids, hst]
  -- phase A: the rows before the designated one
  have PA := foldl_sweep_preserves env now r.id u l₁ s ⟨0, 0, 0⟩
    (fun x hx => hcond₁ x hx) hI0
  rcases PA with ⟨hIA, hpA, hrA, hnA⟩
  -- the designated step
  have hjobA : dictGet u (l₁.foldl (sweepRecord env now) (s, ⟨0, 0, 0⟩)).1.pending_jobs
      = some job := hpA.trans hjob
  have hstA : recordStatus (l₁.foldl (sweepRecord env now) (s, ⟨0, 0, 0⟩)).1 r.id
      = some "Processing" := hrA.trans hst0
  have E := sweepRecord_timeout_effects env now r
    (l₁.foldl (sweepRecord env now) (s, ⟨0, 0, 0⟩)).1
    (l₁.foldl (sweepRecord env now) (s, ⟨0, 0, 0⟩)).2
    u job t "Processing" hu hv hjobA ht hage hstA
  rcases E with ⟨hE1, hE2, hE3, hE4⟩
  -- phase C: the rows after the designated one
  have PC := foldl_sweep_preserves env now r.id u l₂
    (sweepRecord env now
      ((l₁.foldl (sweepRecord env now) (s, ⟨0, 0, 0⟩)).1,
       (l₁.foldl (sweepRecord env now) (s, ⟨0, 0, 0⟩)).2) r).1
    (sweepRecord env now
      ((l₁.foldl (sweepRecord env now) (s, ⟨0, 0, 0⟩)).1,
       (l₁.foldl (sweepRecord env now) (s, ⟨0, 0, 0⟩)).2) r).2
    (fun x hx => hcond₂ x hx) (hE4 hIA)
  rcases PC with ⟨_, hpC, hrC, hnC⟩
  -- assemble: the cycle is the fold over the snapshot plus an optional summary
  have hfold :
      (get_records_by_status s "Processing").foldl (sweepRecord env now)
        (s, ⟨0, 0, 0⟩)
      = l₂.foldl (sweepRecord env now)
          (sweepRecord env now
            ((l₁.foldl (sweepRecord env now) (s, ⟨0, 0, 0⟩)).1,
             (l₁.foldl (sweepRecord env now) (s, ⟨0, 0, 0⟩)).2) r) := by
    rw [get_records_by_status_processing, hsplit, List.foldl_append,
      List.foldl_cons]
  have hntf : Notification.jobTimedOut u (now - t)
      ∈ (l₂.foldl (sweepRecord env now)
          (sweepRecord env now
            ((l₁.foldl (sweepRecord env now) (s, ⟨0, 0, 0⟩)).1,
             (l₁.foldl (sweepRecord env now) (s, ⟨0, 0, 0⟩)).2) r)).1.notifications := by
    apply hnC
    rw [hE3]
    exact List.mem_append_right _ (List.mem_singleton.mpr rfl)
  unfold cleanup_stale_jobs_cycle
  dsimp only
  rw [hfold]
  split
  · exact ⟨hrC.trans hE1, hpC.trans hE2, List.mem_append_left _ hntf⟩
  · exact ⟨hrC.trans hE1, hpC.trans hE2, hntf⟩

/-! ## Rehydrator lemmas -/

/-- A rehydration step on a row with a different id does not touch the
designated row's status, and never sends a message or calls the vendor. -/
theorem recoverRecord_unrelated (now : Int) (rId : Nat) (s : BotState)
    (r₂ : Record) (h2 : r₂.id ≠ rId) :
    recordStatus (recoverRecord now s r₂) rId = recordStatus s rId ∧
    (recoverRecord now s r₂).notifications = s.notifications ∧
    (recoverRecord now s r₂).vendorCalls = s.vendorCalls := by
  unfold recoverRecord
  split
  · exact ⟨recordStatus_update_ne s rId r₂.id "Error" none (fun e => h2 e.symm),
      rfl, rfl⟩
  · exact ⟨rfl, rfl, rfl⟩

theorem foldl_recover_unrelated (now : Int) (rId : Nat) :
    ∀ (l : List Record) (s : BotState),
      (∀ r₂ ∈ l, r₂.id ≠ rId) →
      recordStatus (l.foldl (recoverRecord now) s) rId = recordStatus s rId ∧
      (l.foldl (recoverRecord now) s).notifications = s.notifications ∧
      (l.foldl (recoverRecord now) s).vendorCalls = s.vendorCalls := by
  intro l
  induction l with
  | nil => intro s _; exact ⟨rfl, rfl, rfl⟩
  | cons a t ih =>
    intro s hl
    rw [List.foldl_cons]
    have ha := recoverRecord_unrelated now rId s a (hl a (List.mem_cons_self a t))
    have ht' := ih (recoverRecord now s a)
      (fun x hx => hl x (List.mem_cons_of_mem a hx))
    exact ⟨ht'.1.trans ha.1, ht'.2.1.trans ha.2.1, ht'.2.2.trans ha.2.2⟩

/-- On a UUID-less row the rehydration step is exactly the Error patch
(handlers.py lines 342-346): no message, no vendor call, no task spawned. -/
theorem recoverRecord_noUuid_eq (now : Int) (s : BotState) (r : Record)
    (hu : r.genUuid = none) :
    recoverRecord now s r = update_record_status s r.id "Error" none := by
  unfold recoverRecord
  rw [hu]

/-- Splitting the Processing snapshot around a designated member whose table
has pairwise-distinct ids. -/
theorem processing_split (s : BotState) (r : Record)
    (hr : r ∈ s.records) (hst : r.status = "Processing")
    (hids : (s.records.map (fun x => x.id)).Nodup) :
    ∃ l₁ l₂,
      s.records.filter (fun x => x.status == "Processing") = l₁ ++ r :: l₂ ∧
      (∀ x ∈ l₁, x.id ≠ r.id ∧ x ∈ s.records) ∧
      (∀ x ∈ l₂, x.id ≠ r.id ∧ x ∈ s.records) := by
  have hrpl : r ∈ s.records.filter (fun x => x.status == "Processing") :=
    List.mem_filter.mpr ⟨hr, by simp [hst]⟩
  obtain ⟨l₁, l₂, hsplit⟩ := List.append_of_mem hrpl
  have hplnodup :
      ((s.records.filter (fun x => x.status == "Processing")).map
        (fun x => x.id)).Nodup :=
    List.Nodup.sublist
      (List.Sublist.map (fun x => x.id) (List.filter_sublist s.records)) hids
  have hids' : ((l₁ ++ r :: l₂).map (fun x => x.id)).Nodup := by
    rw [← hsplit]; exact hplnodup
  rw [List.map_append, List.map_cons] at hids'
  rcases List.nodup_append.mp hids' with ⟨_, hn2, hdisj⟩
  have hmemrec : ∀ x : Record, x ∈ l₁ ∨ x ∈ l₂ → x ∈ s.records := by
    intro x hx
    have hxpl : x ∈ s.records.filter (fun y => y.status == "Processing") := by
      rw [hsplit]
      rcases hx with h | h
      · exact List.mem_append_left _ h
      · exact List.mem_append_right _ (List.mem_cons_of_mem _ h)
    exact (List.mem_filter.mp hxpl).1
  refine ⟨l₁, l₂, hsplit, ?_, ?_⟩
  · intro x hx
    refine ⟨?_, hmemrec x (Or.inl hx)⟩
    intro he
    exact hdisj (List.mem_map_of_mem _ hx) (he ▸ List.mem_cons_self _ _)
  · intro x hx
    refine ⟨?_, hmemrec x (Or.inr hx)⟩
    intro he
    exact (List.nodup_cons.mp hn2).1 (he ▸ List.mem_map_of_mem _ hx)

/-! ## Claim theorems -/

/-- C9: every call to `get_next_available_slot` raises `NameError`, because
its body evaluates the free name `timezone` (helpers.py line 43) while the
module scope of helpers.py binds only `datetime` and `timedelta` from the
`datetime` package — `timezone` is the first non-resolving name evaluated.
Consequently every completion path that reaches `create_post_queue_record`
(baserow_client.py line 378) raises before any schedule time is computed or
any Post Queue row is created. -/
theorem C9_get_next_available_slot_raises_NameError :
    (helpersResolves "timezone" = false ∧
      firstUnresolved helpersResolves getNextAvailableSlotFreeNames
        = some "timezone") ∧
    (∀ (now_utc : Int) (scheduled_slots : List Int) (page_id : String),
      get_next_available_slot now_utc scheduled_slots page_id
        = .error (.nameError "timezone")) ∧
    (∀ (now : Int) (s : BotState) (source_record_id : Nat)
        (page_id : Option Nat) (video_url caption : String),
      create_post_queue_record now s source_record_id page_id video_url caption
        = .error (.nameError "timezone")) := by
  refine ⟨⟨rfl, rfl⟩, fun _ _ _ => rfl, fun _ _ _ _ _ _ => rfl⟩

/-- C8: the name `check_job_status` — which `handlers.py` line 15 imports
from `sora_bot.sora_api` and the Stale Sweep calls at line 425 — is imported
but not defined by `sora_api.py`, nor by any other source file of the
repository; the `from ... import` therefore raises `ImportError`, so the
`handlers` module (and with it the sweep's vendor status check) can never be
loaded or executed. -/
theorem C8_check_job_status_missing_import_error :
    handlersSoraApiImportNames.contains "check_job_status" = true ∧
    soraApiModuleNames.contains "check_job_status" = false ∧
    repoDefinedFunctionNames.contains "check_job_status" = false ∧
    importHandlersFromSoraApi
      = .error (.importError "sora_bot.sora_api" "check_job_status") := by
  refine ⟨rfl, rfl, rfl, rfl⟩

/-- C6 counterexample: the claim says EVERY Baserow call retries once after
refreshing credentials on a 401; but `get_page_name` answers a 401 with the
fallback name after a single request and zero cache clears, and
`upload_video_to_baserow` likewise gives up on its first 401 with no
refresh. -/
theorem C6_counterexample_get_page_name_upload_no_retry :
    getPageNameHttp (fun _ => 401) = { ok := false, requests := 1, clears := 0 } ∧
    uploadVideoToBaserowHttp (fun _ => 401)
      = { ok := false, requests := 1, clears := 0 } := ⟨rfl, rfl⟩

/-- C6 amended: the Baserow row calls (`update_record_status`,
`save_generation_uuid`, `get_record_by_uuid`, `get_records_by_status`)
treat a 401 as transient — they clear the token cache exactly once, retry
exactly once, and report failure only if the retry also fails; but
`get_page_name` and `upload_video_to_baserow` make no retry and no refresh
on a 401. -/
theorem C6_amended_only_row_calls_retry_on_401 (resp : Nat → Nat)
    (h : resp 0 = 401) :
    ((updateRecordStatusHttp resp).requests = 2 ∧
      (updateRecordStatusHttp resp).clears = 1 ∧
      (updateRecordStatusHttp resp).ok = (resp 1 == 200 || resp 1 == 201)) ∧
    ((saveGenerationUuidHttp resp).requests = 2 ∧
      (saveGenerationUuidHttp resp).clears = 1 ∧
      (saveGenerationUuidHttp resp).ok = (resp 1 == 200 || resp 1 == 201)) ∧
    ((getRecordByUuidHttp resp).requests = 2 ∧
      (getRecordByUuidHttp resp).clears = 1 ∧
      (getRecordByUuidHttp resp).ok = (resp 1 == 200)) ∧
    ((getRecordsByStatusHttp resp).requests = 2 ∧
      (getRecordsByStatusHttp resp).clears = 1 ∧
      (getRecordsByStatusHttp resp).ok = (resp 1 == 200)) ∧
    getPageNameHttp resp = { ok := false, requests := 1, clears := 0 } ∧
    uploadVideoToBaserowHttp resp = { ok := false, requests := 1, clears := 0 } := by
  unfold updateRecordStatusHttp saveGenerationUuidHttp getRecordByUuidHttp
    getRecordsByStatusHttp getPageNameHttp uploadVideoToBaserowHttp
  dsimp only
  rw [h]
  refine ⟨⟨?_, ?_, ?_⟩, ⟨?_, ?_, ?_⟩, ⟨?_, ?_, ?_⟩, ⟨?_, ?_, ?_⟩, ?_, ?_⟩ <;>
    simp only [show ((401 : Nat) == 200) = false from rfl,
      show ((401 : Nat) == 201) = false from rfl,
      show ((401 : Nat) == 401) = true from rfl,
      show ((401 : Nat) != 200) = true from rfl,
      Bool.or_self, Bool.false_or, Bool.false_eq_true, if_false, if_true]
  all_goals
    first
      | rfl
      | (split <;> rfl)
      | (split <;> simp_all)

/-- Witness for C6's amended theorem at the all-401 response sequence. -/
theorem C6_amended_only_row_calls_retry_on_401_witness :
    (fun _ : Nat => 401) 0 = 401 ∧
    (updateRecordStatusHttp (fun _ => 401)).requests = 2 ∧
    (updateRecordStatusHttp (fun _ => 401)).clears = 1 ∧
    getPageNameHttp (fun _ => 401) = { ok := false, requests := 1, clears := 0 } :=
  ⟨rfl, (C6_amended_only_row_calls_retry_on_401 (fun _ => 401) rfl).1.1,
    (C6_amended_only_row_calls_retry_on_401 (fun _ => 401) rfl).1.2.1,
    (C6_amended_only_row_calls_retry_on_401 (fun _ => 401) rfl).2.2.2.2.1⟩

/-- C1 (code-bug evidence): delivering the same completed signal twice for
`abc123` performs TWO system-of-record patches and TWO notifications.  After
the first delivery the registry entry is gone and the row is already
Completed, but the second delivery's Baserow fallback
(`get_record_by_uuid`, handlers.py line 168 / baserow_client.py lines
65-94) matches on `Generation UUID` with no condition on the row's terminal
status, resurrects the job, and repeats the patch and the notification
instead of abstaining. -/
theorem C1_second_completed_delivery_repeats_side_effects :
    ((complete_video_generation envA 5000 stA "abc123"
        "https://x/cat.mp4").patches.length = 1 ∧
      dictGet "abc123" (complete_video_generation envA 5000 stA "abc123"
        "https://x/cat.mp4").pending_jobs = none ∧
      recordStatus (complete_video_generation envA 5000 stA "abc123"
        "https://x/cat.mp4") 1 = some "Completed" ∧
      (complete_video_generation envA 5000 stA "abc123"
        "https://x/cat.mp4").notifications.length = 1) ∧
    (complete_video_generation envA 5000
      (complete_video_generation envA 5000 stA "abc123" "https://x/cat.mp4")
      "abc123" "https://x/cat.mp4").patches.length = 2 ∧
    (complete_video_generation envA 5000
      (complete_video_generation envA 5000 stA "abc123" "https://x/cat.mp4")
      "abc123" "https://x/cat.mp4").notifications.length = 2 := by decide

/-- C3 (code-bug evidence): a record CAN move from one terminal state to
another.  Completing `abc123` patches row 1 to Completed; a late failed
webhook for the same uuid then finds no registry entry, recovers the row by
UUID (again with no terminal-status check, handlers.py lines 273-282), and
patches the SAME row from Completed to Error — the patch trace reads
Completed then Error. -/
theorem C3_completed_row_later_patched_to_Error :
    recordStatus (complete_video_generation envA 5000 stA "abc123"
      "https://x/cat.mp4") 1 = some "Completed" ∧
    recordStatus (handle_sora_webhook envA 5000
      (complete_video_generation envA 5000 stA "abc123" "https://x/cat.mp4")
      (.failed (some "abc123") (some "boom") (some "E1"))) 1 = some "Error" ∧
    (handle_sora_webhook envA 5000
      (complete_video_generation envA 5000 stA "abc123" "https://x/cat.mp4")
      (.failed (some "abc123") (some "boom") (some "E1"))).patches.map
        (fun p => p.status) = ["Completed", "Error"] := by decide

/-- C4 counterexample: on a state whose only row is Processing with no
stored UUID, the first Rehydrator run patches the row to Error and makes no
vendor call — but sends NO diagnostic notification for the row: the only
message of the run is the aggregate restart notification, refuting the
claim's "sends a diagnostic notification". -/
theorem C4_counterexample_rehydrator_sends_no_diagnostic :
    recordStatus (recover_pending_jobs 0 stB) 2 = some "Error" ∧
    (recover_pending_jobs 0 stB).vendorCalls = [] ∧
    (recover_pending_jobs 0 stB).notifications
      = [.botRestarted 1] := by decide

/-- C4 amended: a Processing row with no stored job identifier is patched to
the failed state (`Error`) by the first Rehydrator run, with no vendor call;
but the Rehydrator sends no per-record diagnostic notification for it — the
run's only message is the single aggregate restart notification (the
per-record "stuck without UUID" diagnostic is the Stale Sweep's, handlers.py
lines 416-419). -/
theorem C4_amended_rehydrator_errors_no_uuid_without_diagnostic
    (now : Int) (s : BotState) (r : Record)
    (hr : r ∈ s.records) (hst : r.status = "Processing") (hu : r.genUuid = none)
    (hids : (s.records.map (fun x => x.id)).Nodup) :
    recordStatus (recover_pending_jobs now s) r.id = some "Error" ∧
    (recover_pending_jobs now s).vendorCalls = s.vendorCalls ∧
    (recover_pending_jobs now s).notifications
      = s.notifications
        ++ [.botRestarted (get_records_by_status s "Processing").length] := by
  obtain ⟨l₁, l₂, hsplit, hl₁, hl₂⟩ := processing_split s r hr hst hids
  have hst0 : recordStatus s r.id = some "Processing" := by
    rw [recordStatus_of_mem_nodup s r hr hids, hst]
  have hA := foldl_recover_unrelated now r.id l₁ s (fun x hx => (hl₁ x hx).1)
  have hstep_eq : recoverRecord now (l₁.foldl (recoverRecord now) s) r
      = update_record_status (l₁.foldl (recoverRecord now) s) r.id "Error" none :=
    recoverRecord_noUuid_eq now _ r hu
  have hstepStatus :
      recordStatus (recoverRecord now (l₁.foldl (recoverRecord now) s) r) r.id
        = some "Error" := by
    rw [hstep_eq]
    exact recordStatus_update_self _ r.id "Error" none "Processing"
      (hA.1.trans hst0)
  have hC := foldl_recover_unrelated now r.id l₂
    (recoverRecord now (l₁.foldl (recoverRecord now) s) r)
    (fun x hx => (hl₂ x hx).1)
  have hNonempty : (get_records_by_status s "Processing").isEmpty = false := by
    rw [get_records_by_status_processing, hsplit]
    cases l₁ <;> rfl
  have hstepNotif :
      (recoverRecord now (l₁.foldl (recoverRecord now) s) r).notifications
        = (l₁.foldl (recoverRecord now) s).notifications := by
    rw [hstep_eq]; rfl
  have hstepVendor :
      (recoverRecord now (l₁.foldl (recoverRecord now) s) r).vendorCalls
        = (l₁.foldl (recoverRecord now) s).vendorCalls := by
    rw [hstep_eq]; rfl
  unfold recover_pending_jobs
  dsimp only
  rw [hNonempty]
  simp only [Bool.false_eq_true, if_false]
  rw [get_records_by_status_processing, hsplit, List.foldl_append,
    List.foldl_cons]
  refine ⟨?_, ?_, ?_⟩
  · exact hC.1.trans hstepStatus
  · exact hC.2.2.trans (hstepVendor.trans hA.2.2)
  · have hX : (l₂.foldl (recoverRecord now)
        (recoverRecord now (l₁.foldl (recoverRecord now) s) r)).notifications
          = s.notifications :=
      hC.2.1.trans (hstepNotif.trans hA.2.1)
    simp only [notify]
    rw [hX]

/-- Witness for C4's amended theorem on the concrete UUID-less row. -/
theorem C4_amended_rehydrator_errors_no_uuid_without_diagnostic_witness :
    recB ∈ stB.records ∧ recB.status = "Processing" ∧ recB.genUuid = none ∧
    recordStatus (recover_pending_jobs 0 stB) 2 = some "Error" ∧
    (recover_pending_jobs 0 stB).vendorCalls = [] := by
  have h := C4_amended_rehydrator_errors_no_uuid_without_diagnostic 0 stB recB
    (by decide) rfl rfl (by decide)
  exact ⟨by decide, rfl, rfl, h.1, h.2.1⟩

/-- C5 counterexample: a failed signal whose uuid is found neither in the
registry nor in the system of record is NOT silently discarded — the code
deliberately sends an untracked-job error notification to the default
audience (handlers.py lines 296-305), refuting the claim's "no notification
is sent" for failed signals. -/
theorem C5_counterexample_unknown_failed_signal_notifies :
    (handle_sora_webhook envA 0 stC
      (.failed (some "zz") (some "boom") (some "E1"))).records = [] ∧
    (handle_sora_webhook envA 0 stC
      (.failed (some "zz") (some "boom") (some "E1"))).patches = [] ∧
    (handle_sora_webhook envA 0 stC
      (.failed (some "zz") (some "boom") (some "E1"))).notifications
      = [.untrackedJobError (some "zz") "boom" "E1"] := by decide

/-- C5 amended: for a signal whose uuid is in neither the registry nor the
system of record, a completed signal is logged and discarded with no state
change at all; a failed signal performs no record mutation but sends
exactly one untracked-job error notification to the default audience. -/
theorem C5_amended_unknown_signal_handling (env : Env) (now : Int)
    (s : BotState) (u : String) (murl emsg ecode : Option String)
    (hp : dictGet u s.pending_jobs = none)
    (hrec : ∀ r ∈ s.records, r.genUuid ≠ some u) :
    handle_sora_webhook env now s (.completed (some u) murl) = s ∧
    handle_sora_webhook env now s (.failed (some u) emsg ecode)
      = notify s (.untrackedJobError (some u) (emsg.getD "Unknown error")
          (ecode.getD "")) := by
  have hg : get_record_by_uuid s u = none := get_record_by_uuid_none s u hrec
  constructor
  · cases murl with
    | none => rfl
    | some url =>
      show complete_video_generation env now s u url = s
      rw [complete_video_generation_eq]
      have hres : resolveJobForCompletion s u = none := by
        unfold resolveJobForCompletion
        rw [hp, hg]
        rfl
      rw [hres]
  · unfold handle_sora_webhook
    dsimp only
    rw [hp]
    dsimp only
    rw [hg]
    rfl

/-- Witness for C5's amended theorem on the empty state. -/
theorem C5_amended_unknown_signal_handling_witness :
    dictGet "zz" stC.pending_jobs = none ∧
    handle_sora_webhook envA 0 stC (.completed (some "zz") (some "https://v"))
      = stC ∧
    handle_sora_webhook envA 0 stC (.failed (some "zz") (some "boom") (some "E1"))
      = notify stC (.untrackedJobError (some "zz") "boom" "E1") := by
  have h := C5_amended_unknown_signal_handling envA 0 stC "zz"
    (some "https://v") (some "boom") (some "E1") (by decide) (by decide)
  exact ⟨rfl, h.1, h.2⟩

/-- C7: whenever completion resolves a job (from the registry or via the
Baserow fallback), the row is first patched to Completed with the asset,
and the pipeline failure that follows the mutation (here the post-queue
stage's NameError, raised after the patch and before the success message)
still produces the degraded "Video ready but save failed" notification
carrying the asset URL — the outcome is not silently dropped. -/
theorem C7_failure_after_mutation_still_notified (env : Env) (now : Int)
    (s : BotState) (uuid url : String) (job : Job)
    (hjob : resolveJobForCompletion s uuid = some job) :
    (complete_video_generation env now s uuid url).patches
      = s.patches ++ [{ record_id := job.record_id, status := "Completed",
                        video_url := some url }] ∧
    (complete_video_generation env now s uuid url).notifications
      = s.notifications
        ++ [.videoReadySaveFailed url (.nameError "timezone") job.chat_id] := by
  constructor
  · rw [complete_video_generation_patches, hjob]
  · rw [complete_video_generation_notifications, hjob]

/-- Witness for C7 on the tracked job of `stA`. -/
theorem C7_failure_after_mutation_still_notified_witness :
    resolveJobForCompletion stA "abc123" = some jobA ∧
    (complete_video_generation envA 5000 stA "abc123"
      "https://x/cat.mp4").notifications
      = [.videoReadySaveFailed "https://x/cat.mp4" (.nameError "timezone") none] := by
  have h := C7_failure_after_mutation_still_notified envA 5000 stA "abc123"
    "https://x/cat.mp4" jobA (by decide)
  exact ⟨by decide, h.2⟩

/-- Any completion run ends with the uuid absent from the registry. -/
theorem complete_video_generation_removes (env : Env) (now : Int)
    (s : BotState) (uuid url : String) :
    dictGet uuid (complete_video_generation env now s uuid url).pending_jobs
      = none := by
  rw [complete_video_generation_pending]
  cases hj : resolveJobForCompletion s uuid with
  | none =>
    unfold resolveJobForCompletion at hj
    cases hd : dictGet uuid s.pending_jobs with
    | none => first | exact hd | rfl
    | some j => rw [hd] at hj; simp at hj
  | some job => exact dictGet_dictRemove_self uuid s.pending_jobs

/-- C10: after any `complete_video_generation(uuid, url)` run — successful
completion, the degraded-error branch, or resolution via the Baserow
fallback — `uuid` is no longer a key of `pending_jobs` (the `finally` block
at handlers.py lines 235-237); and `poll_and_complete` likewise leaves
`uuid` out of the registry on both its completion hand-off and its failure
path (lines 144-157). -/
theorem C10_registry_entry_removed (env : Env) (now : Int) (s : BotState)
    (uuid url : String) :
    dictGet uuid (complete_video_generation env now s uuid url).pending_jobs
      = none ∧
    dictGet uuid (poll_and_complete env now s uuid).pending_jobs = none := by
  constructor
  · exact complete_video_generation_removes env now s uuid url
  · unfold poll_and_complete
    cases hd : dictGet uuid s.pending_jobs with
    | none => exact hd
    | some job =>
      dsimp only
      cases env.pollResult uuid with
      | ok url' => exact complete_video_generation_removes env now _ uuid url'
      | error e => exact dictGet_dictRemove_self uuid _

/-- Witness for C2 at the concrete stale job of `stA`: submitted at 1000,
swept at 10000 (9000 s old, past the 1800 s threshold), vendor still
reporting running. -/
theorem C2_stale_running_job_timed_out_by_sweep_witness :
    (envA.vendorStatus "abc123").status = 1 ∧
    dictGet "abc123" stA.pending_jobs = some jobA ∧
    ((10000 : Int) - 1000 > 1800) ∧
    recordStatus (cleanup_stale_jobs_cycle envA 10000 stA) 1 = some "Error" ∧
    dictGet "abc123" (cleanup_stale_jobs_cycle envA 10000 stA).pending_jobs
      = none ∧
    Notification.jobTimedOut "abc123" (10000 - 1000)
      ∈ (cleanup_stale_jobs_cycle envA 10000 stA).notifications := by
  have h := C2_stale_running_job_timed_out_by_sweep envA 10000 stA recA
    "abc123" jobA 1000 (by decide) rfl rfl rfl (by decide) rfl (by decide)
    (by decide) (by decide) (by decide)
  exact ⟨rfl, by decide, by decide, h.1, h.2.1, h.2.2⟩
